import Mathlib

/-!
Verification development for the awesomity-todo GraphQL backend.

Shallow embedding of the Django/graphene code:
* `src/todoapi/todos/models.py` — the `ToDo` model (fields and defaults);
* `src/todoapp/todos/schema.py` — the todo query and mutation resolvers;
* `src/todoapi/users/schema.py` — the user mutations (register, update,
  delete account, password change);
* `src/todoapi/users/mixins.py` — the login (`tokenAuth`) flow.

The relational store is embedded as a list of rows plus an id counter.
Django's `Model.objects.get` is `objectsGet` (raising `DoesNotExist` when no
row matches, embedded as `Except`), `Model.save` on an existing row replaces
the row with the same id, `Model.delete` removes it.  Python truthiness on
optional string arguments (`kwargs.get(x) or old`) is embedded by
`pyOrString` / `pyUpperOr`: both `None` (here `Option.none`) and the empty
string are falsy.  Timestamps are an abstract `Nat` clock passed in by the
caller (`auto_now` sets `modified_date` on every save).
-/

set_option autoImplicit false
set_option linter.unusedVariables false

namespace TodoApi

/-- Errors surfaced to the GraphQL caller.  `doesNotExist` is Django's
`Model.DoesNotExist` (the spec's NotFound); `graphQLError msg` is an explicit
`raise GraphQLError(msg)` in the resolvers. -/
inductive GqlError where
  | doesNotExist : GqlError
  | graphQLError : String → GqlError
deriving DecidableEq, Repr

/-! ## Todo data model (`src/todoapi/todos/models.py`) -/

/-- `ToDo.LOW` -/
def LOW : String := "LOW"

/-- `ToDo.MEDIUM` -/
def MEDIUM : String := "MEDIUM"

/-- `ToDo.HIGH` -/
def HIGH : String := "HIGH"

/-- `ToDo.ACTIVE` -/
def ACTIVE : String := "ACTIVE"

/-- `ToDo.DONE` -/
def DONE : String := "DONE"

/-- `ToDo.CLOSED` -/
def CLOSED : String := "CLOSED"

/-- `ToDo.PRIORITY_CHOICES`, first components (the stored values). -/
def PRIORITY_CHOICES : List String := [LOW, MEDIUM, HIGH]

/-- `ToDo.STATUS_CHOICES`, first components (the stored values). -/
def STATUS_CHOICES : List String := [ACTIVE, DONE, CLOSED]

/-- A row of the `ToDo` table (`src/todoapi/todos/models.py`, lines 7-23).
`created_by` is the nullable foreign key to the user table (a user id);
`create_date` / `modified_date` are the `auto_now_add` / `auto_now`
timestamps, embedded as abstract clock values. -/
structure ToDo where
  id : Nat
  title : String
  description : String
  priority : String
  status : String
  created_by : Option Nat
  create_date : Nat
  modified_date : Nat
deriving DecidableEq, Repr

/-- The todo table: its rows plus the auto-increment id counter. -/
structure TodoStore where
  rows : List ToDo
  nextId : Nat
deriving DecidableEq, Repr

/-- The empty todo table. -/
def emptyTodoStore : TodoStore := { rows := [], nextId := 1 }

/-- `ToDo.objects.get(id=id)`: the unique row with the given id, or Django's
`DoesNotExist` when none matches. -/
def objectsGet (rows : List ToDo) (id : Nat) : Except GqlError ToDo :=
  match rows.find? (fun r => r.id == id) with
  | some r => .ok r
  | none => .error .doesNotExist

/-- `todo.save()` on an existing row: replace the row with the same id and
stamp `modified_date` (`auto_now`). -/
def saveRow (rows : List ToDo) (t : ToDo) (now : Nat) : List ToDo :=
  rows.map (fun r => if r.id == t.id then { t with modified_date := now } else r)

/-- Python's `str.upper()` on the strings this code handles: uppercase every
character.  (Stated by mapping over the character list rather than through
`String.toUpper`, whose `mapAux` recursion the kernel cannot evaluate; the
two agree character-for-character.) -/
def pyUpper (s : String) : String := ⟨s.data.map Char.toUpper⟩

/-- Python truthiness coalescing `kwargs.get(x) or old` on an optional string
argument: `None` and `""` are falsy and keep the old value. -/
def pyOrString (v : Option String) (old : String) : String :=
  match v with
  | some s => if s == "" then old else s
  | none => old

/-- Python `kwargs.get(x).upper() if kwargs.get(x) else old`: a truthy value
is uppercased, a falsy one keeps the old value. -/
def pyUpperOr (v : Option String) (old : String) : String :=
  match v with
  | some s => if s == "" then old else pyUpper s
  | none => old

/-! ## Todo resolvers (`src/todoapp/todos/schema.py`)

Each `mutate` takes `info_user`, the `info.context.user` of the request
(`none` = anonymous caller), exactly as the Python methods receive `info`;
none of the todo resolvers reads it. -/

/-- `Query.resolve_todo_by_id` (schema.py lines 67-88):
`return ToDo.objects.get(id=id)`. -/
def resolve_todo_by_id (info_user : Option Nat) (s : TodoStore) (id : Nat) :
    Except GqlError ToDo :=
  objectsGet s.rows id

/-- `CreateTodo.mutate` (schema.py lines 123-157): build a `ToDo` from
`title`, `description` and `priority.upper()` — `status`, `created_by` take
the model defaults (`ACTIVE`, null) — and save it.  The `priority` argument
carries the graphene `default_value="low"`. -/
def CreateTodo_mutate (info_user : Option Nat) (s : TodoStore) (now : Nat)
    (title description : String) (priority : String := "low") :
    ToDo × TodoStore :=
  let todo : ToDo :=
    { id := s.nextId
      title := title
      description := description
      priority := pyUpper priority
      status := ACTIVE
      created_by := none
      create_date := now
      modified_date := now }
  (todo, { rows := s.rows ++ [todo], nextId := s.nextId + 1 })

/-- `UpdateTodo.mutate` (schema.py lines 202-240): fetch by `todo_id`
(`DoesNotExist` propagates when absent), then
`todo.title = kwargs.get("title") or todo.title` and likewise for
`description`; `priority` and `status` are uppercased when truthy; save. -/
def UpdateTodo_mutate (info_user : Option Nat) (s : TodoStore) (now : Nat)
    (todo_id : Nat) (title description priority status : Option String) :
    Except GqlError (ToDo × TodoStore) := do
  let todo ← objectsGet s.rows todo_id
  let todo :=
    { todo with
      title := pyOrString title todo.title
      description := pyOrString description todo.description
      priority := pyUpperOr priority todo.priority
      status := pyUpperOr status todo.status }
  let todo := { todo with modified_date := now }
  .ok (todo, { s with rows := saveRow s.rows todo now })

/-- `DeleteTodo.mutate` (schema.py lines 269-299): fetch by `todo_id`
(`DoesNotExist` propagates when absent), delete the row, return the id. -/
def DeleteTodo_mutate (info_user : Option Nat) (s : TodoStore)
    (todo_id : Nat) : Except GqlError (Nat × TodoStore) := do
  let _todo ← objectsGet s.rows todo_id
  .ok (todo_id, { s with rows := s.rows.filter (fun r => r.id != todo_id) })

/-! ## User data model and password hashing

The user table is Django's default `User` model (`get_user_model()`); its
`USERNAME_FIELD` is `"username"`.  Password hashing (`set_password` /
`check_password`) lives in Django's auth library, outside this repository. -/

/-- Modelled from the spec: the external password-hashing service —
"creates the user with a securely hashed password", "password (hashed, never
exposed in plaintext)".  `set_password(p)` stores `hashPassword p`; the hash
is injective so `check_password` can verify, and prefixed so it differs from
the plaintext. -/
def hashPassword (p : String) : String := "pbkdf2_sha256$" ++ p

/-- Modelled from the spec: `user.check_password(p)` — verifies a plaintext
password against the stored hash. -/
def check_password (storedHash : String) (p : String) : Bool :=
  storedHash == hashPassword p

/-- A row of the user table: Django's default user model.  `password` holds
the stored hash. -/
structure User where
  id : Nat
  first_name : String
  last_name : String
  username : String
  email : String
  password : String
  is_superuser : Bool
deriving DecidableEq, Repr

/-- The user table: its rows plus the auto-increment id counter. -/
structure UserStore where
  users : List User
  nextId : Nat
deriving DecidableEq, Repr

/-- The empty user table. -/
def emptyUserStore : UserStore := { users := [], nextId := 1 }

/-! ## User mutations (`src/todoapi/users/schema.py`) -/

/-- `Register.mutate` (users/schema.py lines 136-190): build the user, then
check in order — email taken (`Email is already in use!`), username taken
(`Username is already in use!`), `password != password2`
(`Password mismatch! Please check again`) — and only then
`user.set_password(password); user.save()`. -/
def Register_mutate (s : UserStore)
    (first_name last_name username email password password2 : String) :
    Except GqlError (User × UserStore) :=
  if s.users.any (fun u => u.email == email) then
    .error (.graphQLError "Email is already in use!")
  else if s.users.any (fun u => u.username == username) then
    .error (.graphQLError "Username is already in use!")
  else if password != password2 then
    .error (.graphQLError "Password mismatch! Please check again")
  else
    let user : User :=
      { id := s.nextId
        first_name := first_name
        last_name := last_name
        username := username
        email := email
        password := hashPassword password
        is_superuser := false }
    .ok (user, { users := s.users ++ [user], nextId := s.nextId + 1 })

/-- `DeleteAccount.mutate` (users/schema.py lines 304-337): `user` is the
authenticated `info.context.user`; a failed `check_password` raises
`Please specify correct password to delete account`, otherwise
`user.delete()` and the supplied password is echoed back. -/
def DeleteAccount_mutate (user : User) (s : UserStore) (password : String) :
    Except GqlError (String × UserStore) :=
  if !(check_password user.password password) then
    .error (.graphQLError "Please specify correct password to delete account")
  else
    .ok (password, { s with users := s.users.filter (fun u => u.id != user.id) })

/-! ## Login flow (`src/todoapi/users/mixins.py` and
`ObtainJSONWebToken` in `src/todoapi/users/schema.py`)

`tokenAuth` arguments: `password` (required) plus the optional
`LOGIN_ALLOWED_FIELDS = ["email", "username"]`.  graphene passes only the
supplied arguments to `resolve_mutation` as `kwargs`. -/

/-- `ObtainJSONWebToken.LOGIN_ALLOWED_FIELDS` (users/schema.py line 447). -/
def LOGIN_ALLOWED_FIELDS : List String := ["email", "username"]

/-- The message raised on a wrong argument count (mixins.py lines 64-68):
Python renders `%s` on the list as `['email', 'username']`. -/
def loginArgCountMsg : String :=
  "Must login with password and one of the following fields ['email', 'username']."

/-- The `kwargs` of a `tokenAuth` request: the required `password` plus
whichever of the optional identifying fields were supplied. -/
structure LoginKwargs where
  password : String
  email : Option String
  username : Option String
deriving DecidableEq, Repr

/-- `len(kwargs.items())`: the number of supplied arguments. -/
def LoginKwargs.count (k : LoginKwargs) : Nat :=
  1 + (if k.email.isSome then 1 else 0) + (if k.username.isSome then 1 else 0)

/-- `get_user_to_login(**query_kwargs)` (mixins.py lines 13-24) querying one
field: `UserModel._default_manager.get(field=value)`.  The local
`ObjectDoesNotExist` class shadows Django's, so the `except` clause there
never fires; Django's `DoesNotExist` propagates to the caller unchanged. -/
def get_user_to_login (s : UserStore) (field : String) (value : String) :
    Except GqlError User :=
  match s.users.find? (fun u =>
      if field == "username" then u.username == value else u.email == value) with
  | some u => .ok u
  | none => .error .doesNotExist

/-- Modelled from the spec: the external token-issuing component
(`graphql_jwt.JSONWebTokenMutation`, reached through `parent_resolve`) —
"verifies the password against the stored hash and issues a signed token ...
output {token, authenticated user} or failure".  It is called with the
`USERNAME_FIELD` (`username`) and `password`; failure is an exception. -/
def jwtParentResolve (s : UserStore) (username password : String) :
    Except GqlError User :=
  match s.users.find? (fun u => u.username == username) with
  | some u =>
      if check_password u.password password then .ok u
      else .error (.graphQLError "Please enter valid credentials.")
  | none => .error .doesNotExist

/-- The body of the `try:` block in
`ObtainJSONWebTokenMixin.resolve_mutation` (mixins.py lines 70-95), after the
argument-count check: if `USERNAME_FIELD` (`"username"`) is among the kwargs,
query by it and pass the kwargs through; otherwise pop `password`, query by
the remaining field (`email`), and log in with the found user's username. -/
def loginTryBlock (s : UserStore) (k : LoginKwargs) : Except GqlError User := do
  match k.username with
  | some uname =>
      let user ← get_user_to_login s "username" uname
      jwtParentResolve s uname k.password
  | none =>
      match k.email with
      | some em =>
          let user ← get_user_to_login s "email" em
          jwtParentResolve s user.username k.password
      | none => .error .doesNotExist

/-- `ObtainJSONWebTokenMixin.resolve_mutation` (mixins.py lines 62-98): the
argument-count guard, then the `try:` block whose every exception the bare
`except:` replaces with `GraphQLError("Please enter valid credentials.")`. -/
def resolve_mutation (s : UserStore) (k : LoginKwargs) : Except GqlError User :=
  if k.count != 2 then
    .error (.graphQLError loginArgCountMsg)
  else
    match loginTryBlock s k with
    | .ok u => .ok u
    | .error _ => .error (.graphQLError "Please enter valid credentials.")

/-- Django's request/exception semantics for a user mutation: an uncaught
exception aborts the request and the table is left as it was (every raise in
the source precedes the write), while a normal return installs the written
table. -/
def runUserMutation {α : Type} (s : UserStore)
    (r : Except GqlError (α × UserStore)) : Except GqlError α × UserStore :=
  match r with
  | .ok (a, s') => (.ok a, s')
  | .error e => (.error e, s)

/-- Every row of the todo table has a null `created_by` reference. -/
def allCreatedByNone (s : TodoStore) : Prop :=
  ∀ r ∈ s.rows, r.created_by = none

/-! ## Sample rows used by the concrete witness instances -/

/-- A concrete stored todo row. -/
def sampleTodo : ToDo :=
  { id := 1
    title := "Buy milk"
    description := "2%"
    priority := "LOW"
    status := "ACTIVE"
    created_by := none
    create_date := 0
    modified_date := 0 }

/-- A one-row todo table holding `sampleTodo`. -/
def sampleTodoStore : TodoStore := { rows := [sampleTodo], nextId := 2 }

/-- `sampleTodo` after a priority update to "MEDIUM" at clock 5. -/
def sampleTodoMedium : ToDo :=
  { sampleTodo with priority := "MEDIUM", modified_date := 5 }

/-- A concrete stored user row (password hash of `"pw"`). -/
def sampleUser : User :=
  { id := 1
    first_name := "Ada"
    last_name := "L"
    username := "ada"
    email := "ada@example.com"
    password := hashPassword "pw"
    is_superuser := false }

/-- A one-row user table holding `sampleUser`. -/
def sampleUserStore : UserStore := { users := [sampleUser], nextId := 2 }

/-! ## Theorems -/

/-- C5: For every createTodo call with title, description and an arbitrary
priority string (defaulting to "low" when omitted), the stored todo's
priority equals the uppercase of the input priority string and its status
equals ACTIVE. -/
theorem createTodo_upper_priority_active_status
    (info_user : Option Nat) (s : TodoStore) (now : Nat)
    (title description priority : String) :
    (CreateTodo_mutate info_user s now title description priority).1.priority
        = pyUpper priority
    ∧ (CreateTodo_mutate info_user s now title description priority).1.status
        = ACTIVE
    ∧ (CreateTodo_mutate info_user s now title description priority).2.rows
        = s.rows
          ++ [(CreateTodo_mutate info_user s now title description priority).1]
    ∧ (CreateTodo_mutate info_user s now title description).1.priority
        = "LOW" :=
  ⟨rfl, rfl, rfl, show pyUpper "low" = "LOW" by decide⟩

/-- C1, counterexample: `createTodo` with priority `"urgent"` stores
`"URGENT"`, which is outside the enumerated priority set — the mutations
uppercase but never validate membership. -/
theorem createTodo_priority_not_validated :
    ¬ (CreateTodo_mutate none emptyTodoStore 0 "t" "d" "urgent").1.priority
        ∈ PRIORITY_CHOICES := by
  decide

/-- C1, amended: every todo write uppercases the supplied priority/status
before storage (a falsy field in updateTodo keeps the previous value); the
stored value lies in the enumerated set exactly when the uppercased truthy
input does (for createTodo's priority, and for updateTodo's fields given the
previous value was in the set); createTodo's status is always ACTIVE, which
is in the status set.  No membership validation rejects other inputs. -/
theorem todo_writes_uppercase_no_validation
    (info_user : Option Nat) (s : TodoStore) (now : Nat)
    (title description priority : String)
    (todo_id : Nat) (t t' : ToDo) (s' : TodoStore)
    (ot od op ost : Option String) :
    ((CreateTodo_mutate info_user s now title description priority).1.priority
        = pyUpper priority
      ∧ ((CreateTodo_mutate info_user s now title description
            priority).1.priority ∈ PRIORITY_CHOICES
          ↔ pyUpper priority ∈ PRIORITY_CHOICES)
      ∧ (CreateTodo_mutate info_user s now title description
            priority).1.status ∈ STATUS_CHOICES)
    ∧ (objectsGet s.rows todo_id = .ok t →
        UpdateTodo_mutate info_user s now todo_id ot od op ost = .ok (t', s') →
        t'.priority = pyUpperOr op t.priority
        ∧ t'.status = pyUpperOr ost t.status
        ∧ (t.priority ∈ PRIORITY_CHOICES →
            (t'.priority ∈ PRIORITY_CHOICES ↔
              match op with
              | some p => if p = "" then True else pyUpper p ∈ PRIORITY_CHOICES
              | none => True))
        ∧ (t.status ∈ STATUS_CHOICES →
            (t'.status ∈ STATUS_CHOICES ↔
              match ost with
              | some p => if p = "" then True else pyUpper p ∈ STATUS_CHOICES
              | none => True))) := by
  refine ⟨⟨rfl, Iff.rfl, show ACTIVE ∈ STATUS_CHOICES by decide⟩,
    fun hget hupd => ?_⟩
  simp only [UpdateTodo_mutate, hget, bind, Except.bind, Except.ok.injEq,
    Prod.mk.injEq] at hupd
  obtain ⟨ht', hs'⟩ := hupd
  subst ht'
  refine ⟨rfl, rfl, fun hp => ?_, fun hs => ?_⟩
  · cases op with
    | none => simpa [pyUpperOr] using hp
    | some p =>
        by_cases hpe : p = "" <;> simp [pyUpperOr, hpe, hp]
  · cases ost with
    | none => simpa [pyUpperOr] using hs
    | some p =>
        by_cases hpe : p = "" <;> simp [pyUpperOr, hpe, hs]

/-- C1 amended, witness: concrete instance — updating the priority of a
stored todo to "medium" stores "MEDIUM". -/
theorem todo_writes_uppercase_no_validation_witness :
    objectsGet sampleTodoStore.rows 1 = .ok sampleTodo
    ∧ UpdateTodo_mutate none sampleTodoStore 5 1 none none (some "medium") none
        = .ok (sampleTodoMedium, { rows := [sampleTodoMedium], nextId := 2 })
    ∧ sampleTodoMedium.priority
        = pyUpperOr (some "medium") sampleTodo.priority := by
  refine ⟨rfl, rfl, ?_⟩
  exact ((todo_writes_uppercase_no_validation none sampleTodoStore 5 "" "" ""
      1 sampleTodo sampleTodoMedium { rows := [sampleTodoMedium], nextId := 2 }
      none none (some "medium") none).2 rfl rfl).1

/-- C6: updateTodo with only todo_id and status supplied leaves title,
description and priority unchanged and stores the uppercased status; in
general every absent (`none`) or falsy (`""`) optional field keeps the
previous stored value. -/
theorem updateTodo_partial_field_semantics
    (info_user : Option Nat) (s : TodoStore) (now : Nat) (todo_id : Nat)
    (t : ToDo) (hget : objectsGet s.rows todo_id = .ok t)
    (ot od op ost : Option String) :
    (∀ st : String, st ≠ "" →
      ∃ t' s',
        UpdateTodo_mutate info_user s now todo_id none none none (some st)
          = .ok (t', s')
        ∧ t'.title = t.title ∧ t'.description = t.description
        ∧ t'.priority = t.priority ∧ t'.status = pyUpper st
        ∧ t'.modified_date = now ∧ s'.rows = saveRow s.rows t' now)
    ∧ (∀ t' s',
        UpdateTodo_mutate info_user s now todo_id ot od op ost = .ok (t', s') →
        ((ot = none ∨ ot = some "") → t'.title = t.title)
        ∧ ((od = none ∨ od = some "") → t'.description = t.description)
        ∧ ((op = none ∨ op = some "") → t'.priority = t.priority)
        ∧ ((ost = none ∨ ost = some "") → t'.status = t.status)) := by
  constructor
  · intro st hst
    rcases hres : UpdateTodo_mutate info_user s now todo_id none none none
        (some st) with e | ts
    · simp [UpdateTodo_mutate, hget, bind, Except.bind] at hres
    · obtain ⟨t', s'⟩ := ts
      have hfields := hres
      simp only [UpdateTodo_mutate, hget, bind, Except.bind, Except.ok.injEq,
        Prod.mk.injEq] at hfields
      obtain ⟨ht', hs'⟩ := hfields
      subst ht' hs'
      refine ⟨_, _, rfl, ?_, ?_, ?_, ?_, rfl, rfl⟩
      · simp [pyOrString]
      · simp [pyOrString]
      · simp [pyUpperOr]
      · simp [pyUpperOr, hst]
  · intro t' s' hupd
    simp only [UpdateTodo_mutate, hget, bind, Except.bind, Except.ok.injEq,
      Prod.mk.injEq] at hupd
    obtain ⟨ht', hs'⟩ := hupd
    subst ht'
    refine ⟨fun h => ?_, fun h => ?_, fun h => ?_, fun h => ?_⟩ <;>
      rcases h with h | h <;> simp [pyOrString, pyUpperOr, h]

/-- C6, witness: updating only the status of `sampleTodo` to "done" stores
"DONE" and leaves the other fields as they were. -/
theorem updateTodo_partial_field_semantics_witness :
    objectsGet sampleTodoStore.rows 1 = .ok sampleTodo
    ∧ ("done" : String) ≠ ""
    ∧ ∃ t' s',
        UpdateTodo_mutate none sampleTodoStore 5 1 none none none (some "done")
          = .ok (t', s')
        ∧ t'.title = sampleTodo.title
        ∧ t'.description = sampleTodo.description
        ∧ t'.priority = sampleTodo.priority ∧ t'.status = pyUpper "done"
        ∧ t'.modified_date = 5 ∧ s'.rows = saveRow sampleTodoStore.rows t' 5 :=
  ⟨rfl, by decide,
    (updateTodo_partial_field_semantics none sampleTodoStore 5 1
      sampleTodo rfl none none none none).1 "done" (by decide)⟩

/-- C7: getTodoById fails with NotFound (Django `DoesNotExist`) whenever no
row with the id exists; for every existing id, deleteTodo succeeds, returns
the deleted id, and getTodoById on the resulting table fails with NotFound;
every successful deleteTodo returns the requested id and leaves no row with
it. -/
theorem deleteTodo_then_get_not_found
    (info_user : Option Nat) (s : TodoStore) (id : Nat) :
    ((∀ r ∈ s.rows, r.id ≠ id) →
        resolve_todo_by_id info_user s id = .error .doesNotExist)
    ∧ (∀ t, objectsGet s.rows id = .ok t →
        ∃ s', DeleteTodo_mutate info_user s id = .ok (id, s')
          ∧ resolve_todo_by_id info_user s' id = .error .doesNotExist)
    ∧ (∀ ret s', DeleteTodo_mutate info_user s id = .ok (ret, s') →
        ret = id ∧ resolve_todo_by_id info_user s' id = .error .doesNotExist) := by
  have hfilter : ∀ rows : List ToDo,
      (rows.filter (fun r => r.id != id)).find? (fun r => r.id == id) = none := by
    intro rows
    rw [List.find?_eq_none]
    intro r hr
    have := (List.mem_filter.mp hr).2
    simpa using this
  refine ⟨fun h => ?_, fun t hget => ?_, fun ret s' hdel => ?_⟩
  · unfold resolve_todo_by_id objectsGet
    rw [List.find?_eq_none.mpr]
    intro r hr
    simpa using h r hr
  · refine ⟨{ s with rows := s.rows.filter (fun r => r.id != id) }, ?_, ?_⟩
    · simp [DeleteTodo_mutate, hget, bind, Except.bind]
    · simp [resolve_todo_by_id, objectsGet, hfilter]
  · rcases hok : objectsGet s.rows id with e | t
    · simp [DeleteTodo_mutate, hok, bind, Except.bind] at hdel
    · simp only [DeleteTodo_mutate, hok, bind, Except.bind, Except.ok.injEq,
        Prod.mk.injEq] at hdel
      obtain ⟨hret, hs'⟩ := hdel
      subst hs'
      exact ⟨hret.symm, by simp [resolve_todo_by_id, objectsGet, hfilter]⟩

/-- C7, witness: deleting the single stored todo returns its id and a
subsequent getTodoById fails with `DoesNotExist`. -/
theorem deleteTodo_then_get_not_found_witness :
    objectsGet sampleTodoStore.rows 1 = .ok sampleTodo
    ∧ ∃ s', DeleteTodo_mutate none sampleTodoStore 1 = .ok (1, s')
        ∧ resolve_todo_by_id none s' 1 = .error .doesNotExist :=
  ⟨rfl, (deleteTodo_then_get_not_found none sampleTodoStore 1).2.1
    sampleTodo rfl⟩

/-- C9: the todo mutations read no authentication state — each produces the
same result for every caller (authenticated or anonymous), and the only
failure any of them can produce is `DoesNotExist` (NotFound), never an
Unauthenticated `GraphQLError`. -/
theorem todo_mutations_no_auth_check
    (c1 c2 : Option Nat) (s : TodoStore) (now : Nat)
    (title description priority : String) (todo_id : Nat)
    (ot od op ost : Option String) :
    CreateTodo_mutate c1 s now title description priority
        = CreateTodo_mutate c2 s now title description priority
    ∧ UpdateTodo_mutate c1 s now todo_id ot od op ost
        = UpdateTodo_mutate c2 s now todo_id ot od op ost
    ∧ DeleteTodo_mutate c1 s todo_id = DeleteTodo_mutate c2 s todo_id
    ∧ (∀ e, UpdateTodo_mutate c1 s now todo_id ot od op ost = .error e →
        e = .doesNotExist)
    ∧ (∀ e, DeleteTodo_mutate c1 s todo_id = .error e → e = .doesNotExist) := by
  refine ⟨rfl, rfl, rfl, fun e he => ?_, fun e he => ?_⟩
  · rcases hfind : s.rows.find? (fun r => r.id == todo_id) with _ | t <;>
      simp [UpdateTodo_mutate, objectsGet, hfind, bind, Except.bind] at he <;>
      simp [he]
  · rcases hfind : s.rows.find? (fun r => r.id == todo_id) with _ | t <;>
      simp [DeleteTodo_mutate, objectsGet, hfind, bind, Except.bind] at he <;>
      simp [he]

/-- C9, witness: deleting a missing id fails with `DoesNotExist` (not an
authentication error) and the outcome is the same for an authenticated and
an anonymous caller. -/
theorem todo_mutations_no_auth_check_witness :
    DeleteTodo_mutate (some 7) emptyTodoStore 1 = .error .doesNotExist
    ∧ GqlError.doesNotExist = GqlError.doesNotExist
    ∧ DeleteTodo_mutate (some 7) emptyTodoStore 1
        = DeleteTodo_mutate none emptyTodoStore 1 :=
  ⟨rfl,
    (todo_mutations_no_auth_check (some 7) none emptyTodoStore 0 "" "" "" 1
      none none none none).2.2.2.2 .doesNotExist rfl,
    (todo_mutations_no_auth_check (some 7) none emptyTodoStore 0 "" "" "" 1
      none none none none).2.2.1⟩

/-- C10: createTodo stores a null `created_by` regardless of the caller, and
no todo mutation ever sets it: starting from a table whose rows all have a
null `created_by`, create, update and delete all preserve that. -/
theorem createTodo_created_by_always_null
    (c : Option Nat) (s : TodoStore) (now : Nat)
    (title description priority : String) (todo_id : Nat)
    (ot od op ost : Option String) :
    (CreateTodo_mutate c s now title description priority).1.created_by = none
    ∧ (allCreatedByNone s →
        allCreatedByNone (CreateTodo_mutate c s now title description
          priority).2)
    ∧ (allCreatedByNone s → ∀ t' s',
        UpdateTodo_mutate c s now todo_id ot od op ost = .ok (t', s') →
        t'.created_by = none ∧ allCreatedByNone s')
    ∧ (allCreatedByNone s → ∀ ret s',
        DeleteTodo_mutate c s todo_id = .ok (ret, s') →
        allCreatedByNone s') := by
  refine ⟨rfl, fun hall => ?_, fun hall t' s' hupd => ?_,
    fun hall ret s' hdel => ?_⟩
  · intro r hr
    simp only [CreateTodo_mutate, List.mem_append, List.mem_singleton] at hr
    rcases hr with hr | hr
    · exact hall r hr
    · simp [hr]
  · rcases hfind : s.rows.find? (fun r => r.id == todo_id) with _ | t
    · simp [UpdateTodo_mutate, objectsGet, hfind, bind, Except.bind] at hupd
    · have htmem : t ∈ s.rows := List.mem_of_find?_eq_some hfind
      have htnone : t.created_by = none := hall t htmem
      simp only [UpdateTodo_mutate, objectsGet, hfind, bind, Except.bind,
        Except.ok.injEq, Prod.mk.injEq] at hupd
      obtain ⟨ht', hs'⟩ := hupd
      subst ht' hs'
      refine ⟨htnone, fun r hr => ?_⟩
      simp only [saveRow, List.mem_map] at hr
      obtain ⟨a, ha, har⟩ := hr
      by_cases hid : (a.id == t.id) = true <;> simp [hid] at har <;>
        simp [← har, htnone, hall a ha]
  · rcases hfind : s.rows.find? (fun r => r.id == todo_id) with _ | t
    · simp [DeleteTodo_mutate, objectsGet, hfind, bind, Except.bind] at hdel
    · simp only [DeleteTodo_mutate, objectsGet, hfind, bind, Except.bind,
        Except.ok.injEq, Prod.mk.injEq] at hdel
      obtain ⟨-, hs'⟩ := hdel
      subst hs'
      exact fun r hr => hall r (List.mem_of_mem_filter hr)

/-- C10, witness: the todo created in an empty table by an authenticated
caller has a null `created_by`, and the resulting one-row table keeps the
all-null invariant. -/
theorem createTodo_created_by_always_null_witness :
    (CreateTodo_mutate (some 7) emptyTodoStore 0 "t" "d" "low").1.created_by
        = none
    ∧ allCreatedByNone emptyTodoStore
    ∧ allCreatedByNone
        (CreateTodo_mutate (some 7) emptyTodoStore 0 "t" "d" "low").2 :=
  ⟨rfl, by simp [allCreatedByNone, emptyTodoStore],
    (createTodo_created_by_always_null (some 7) emptyTodoStore 0 "t" "d"
      "low" 1 none none none none).2.1
      (by simp [allCreatedByNone, emptyTodoStore])⟩

/-- C2: every tokenAuth request whose supplied-argument count is not exactly
two (the password plus one identifying field) fails with the ValidationError
whose message begins "Must login with password and one of the following
fields", before any credential is examined. -/
theorem login_requires_exactly_two_fields (s : UserStore) (k : LoginKwargs)
    (h : k.count ≠ 2) :
    resolve_mutation s k = .error (.graphQLError loginArgCountMsg)
    ∧ ∃ rest, loginArgCountMsg
        = "Must login with password and one of the following fields" ++ rest := by
  refine ⟨by simp [resolve_mutation, h], ⟨" ['email', 'username'].", by decide⟩⟩

/-- C2, witness: supplying password, email and username together (three
fields) fails with the argument-count message even though the username and
password are valid for the stored user. -/
theorem login_requires_exactly_two_fields_witness :
    (LoginKwargs.mk "pw" (some "ada@example.com") (some "ada")).count ≠ 2
    ∧ resolve_mutation sampleUserStore
        (LoginKwargs.mk "pw" (some "ada@example.com") (some "ada"))
        = .error (.graphQLError loginArgCountMsg)
    ∧ check_password sampleUser.password "pw" = true :=
  ⟨by decide,
    (login_requires_exactly_two_fields sampleUserStore
      (LoginKwargs.mk "pw" (some "ada@example.com") (some "ada"))
      (by decide)).1,
    by decide⟩

/-- C3: with a well-formed argument pair, every failure of tokenAuth — a
lookup matching no user or a credential mismatch — surfaces as the single
generic GraphQLError "Please enter valid credentials."; the underlying
`DoesNotExist` lookup error is never surfaced. -/
theorem login_failure_is_generic_message (s : UserStore) (k : LoginKwargs)
    (h2 : k.count = 2) :
    (∀ e, resolve_mutation s k = .error e →
        e = .graphQLError "Please enter valid credentials.")
    ∧ ((∀ u ∈ s.users, k.username ≠ some u.username ∧ k.email ≠ some u.email) →
        resolve_mutation s k
          = .error (.graphQLError "Please enter valid credentials."))
    ∧ (∀ uname u, k.username = some uname →
        s.users.find? (fun v => v.username == uname) = some u →
        check_password u.password k.password = false →
        resolve_mutation s k
          = .error (.graphQLError "Please enter valid credentials."))
    ∧ ((∀ v ∈ s.users, ∀ w ∈ s.users, v.username = w.username → v = w) →
        ∀ em u, k.username = none → k.email = some em →
        s.users.find? (fun v => v.email == em) = some u →
        check_password u.password k.password = false →
        resolve_mutation s k
          = .error (.graphQLError "Please enter valid credentials.")) := by
  have hcnt : (k.count != 2) = false := by simp [h2]
  refine ⟨fun e he => ?_, fun hno => ?_, fun uname u hku hfind hpw => ?_,
    fun huniq em u hku hke hfind hpw => ?_⟩
  · rcases htb : loginTryBlock s k with e' | u <;>
      simp [resolve_mutation, hcnt, htb] at he <;> simp [he]
  · have htb : loginTryBlock s k = .error .doesNotExist := by
      rcases hku : k.username with _ | uname
      · rcases hke : k.email with _ | em
        · simp [loginTryBlock, hku, hke]
        · have hfind : s.users.find? (fun u => u.email == em) = none := by
            rw [List.find?_eq_none]
            intro u hu
            have h1 : ¬ em = u.email := by
              simpa [hke] using (hno u hu).2
            simp only [beq_iff_eq]
            exact fun h => h1 h.symm
          simp [loginTryBlock, hku, hke, get_user_to_login, hfind, bind,
            Except.bind]
      · have hfind : s.users.find? (fun u => u.username == uname) = none := by
          rw [List.find?_eq_none]
          intro u hu
          have h1 : ¬ uname = u.username := by
            simpa [hku] using (hno u hu).1
          simp only [beq_iff_eq]
          exact fun h => h1 h.symm
        simp [loginTryBlock, hku, get_user_to_login, hfind, bind,
          Except.bind]
    simp [resolve_mutation, hcnt, htb]
  · have htb : loginTryBlock s k
        = .error (.graphQLError "Please enter valid credentials.") := by
      simp [loginTryBlock, hku, get_user_to_login, hfind, bind, Except.bind,
        jwtParentResolve, hpw]
    simp [resolve_mutation, hcnt, htb]
  · have humem : u ∈ s.users := List.mem_of_find?_eq_some hfind
    have hfu : s.users.find? (fun v => v.username == u.username) = some u := by
      rcases hfu' : s.users.find? (fun v => v.username == u.username)
        with _ | w
      · have hcontra := List.find?_eq_none.mp hfu' u humem
        simp at hcontra
      · have hwmem : w ∈ s.users := List.mem_of_find?_eq_some hfu'
        have hweq : w.username = u.username := by
          simpa using List.find?_some hfu'
        rw [hfu', huniq w hwmem u humem hweq]
    have htb : loginTryBlock s k
        = .error (.graphQLError "Please enter valid credentials.") := by
      simp [loginTryBlock, hku, hke, get_user_to_login, hfind, bind,
        Except.bind, jwtParentResolve, hfu, hpw]
    simp [resolve_mutation, hcnt, htb]

/-- C3, witness: logging in with a username matching no stored user fails
with the generic message, not with `DoesNotExist`; logging in with the
stored user's email but a wrong password also fails with the generic
message. -/
theorem login_failure_is_generic_message_witness :
    (LoginKwargs.mk "pw" none (some "nobody")).count = 2
    ∧ (∀ u ∈ sampleUserStore.users,
        (LoginKwargs.mk "pw" none (some "nobody")).username ≠ some u.username
        ∧ (LoginKwargs.mk "pw" none (some "nobody")).email ≠ some u.email)
    ∧ resolve_mutation sampleUserStore (LoginKwargs.mk "pw" none (some "nobody"))
        = .error (.graphQLError "Please enter valid credentials.")
    ∧ (LoginKwargs.mk "wrong" (some "ada@example.com") none).count = 2
    ∧ sampleUserStore.users.find? (fun v => v.email == "ada@example.com")
        = some sampleUser
    ∧ check_password sampleUser.password "wrong" = false
    ∧ resolve_mutation sampleUserStore
        (LoginKwargs.mk "wrong" (some "ada@example.com") none)
        = .error (.graphQLError "Please enter valid credentials.") :=
  ⟨by decide, by decide,
    (login_failure_is_generic_message sampleUserStore
      (LoginKwargs.mk "pw" none (some "nobody")) (by decide)).2.1 (by decide),
    by decide, by decide, by decide,
    (login_failure_is_generic_message sampleUserStore
      (LoginKwargs.mk "wrong" (some "ada@example.com") none)
      (by decide)).2.2.2 (by decide) "ada@example.com" sampleUser rfl rfl
      (by decide) (by decide)⟩

/-- C4: register fails with Conflict when the email exists, then with
Conflict when the username exists, then with ValidationError when
password ≠ password2; every failure leaves the user table unchanged; success
appends exactly the new user, whose stored password is the hash of the
input. -/
theorem register_conflicts_then_mismatch_then_hash (s : UserStore)
    (fn ln un em pw pw2 : String) :
    (s.users.any (fun u => u.email == em) = true →
        runUserMutation s (Register_mutate s fn ln un em pw pw2)
          = (.error (.graphQLError "Email is already in use!"), s))
    ∧ (s.users.any (fun u => u.email == em) = false →
        s.users.any (fun u => u.username == un) = true →
        runUserMutation s (Register_mutate s fn ln un em pw pw2)
          = (.error (.graphQLError "Username is already in use!"), s))
    ∧ (s.users.any (fun u => u.email == em) = false →
        s.users.any (fun u => u.username == un) = false →
        pw ≠ pw2 →
        runUserMutation s (Register_mutate s fn ln un em pw pw2)
          = (.error (.graphQLError "Password mismatch! Please check again"), s))
    ∧ (∀ e, Register_mutate s fn ln un em pw pw2 = .error e →
        (runUserMutation s (Register_mutate s fn ln un em pw pw2)).2 = s)
    ∧ (∀ u s', Register_mutate s fn ln un em pw pw2 = .ok (u, s') →
        u.password = hashPassword pw ∧ s'.users = s.users ++ [u]) := by
  refine ⟨fun he => ?_, fun he hu => ?_, fun he hu hpw => ?_,
    fun e herr => ?_, fun u s' hok => ?_⟩
  · simp [runUserMutation, Register_mutate, he]
  · simp [runUserMutation, Register_mutate, he, hu]
  · simp [runUserMutation, Register_mutate, he, hu, hpw]
  · simp [runUserMutation, herr]
  · rw [Register_mutate] at hok
    by_cases he : s.users.any (fun v => v.email == em) = true
    · rw [if_pos he] at hok
      exact absurd hok (by simp)
    · rw [if_neg he] at hok
      by_cases hun : s.users.any (fun v => v.username == un) = true
      · rw [if_pos hun] at hok
        exact absurd hok (by simp)
      · rw [if_neg hun] at hok
        by_cases hpw : (pw != pw2) = true
        · rw [if_pos hpw] at hok
          exact absurd hok (by simp)
        · rw [if_neg hpw] at hok
          simp only [Except.ok.injEq, Prod.mk.injEq] at hok
          obtain ⟨hu', hs'⟩ := hok
          subst hu' hs'
          exact ⟨rfl, rfl⟩

/-- C4, witness: registering a second user with the stored user's email
fails with the email Conflict and the user table is unchanged. -/
theorem register_conflicts_then_mismatch_then_hash_witness :
    sampleUserStore.users.any (fun u => u.email == "ada@example.com") = true
    ∧ runUserMutation sampleUserStore
        (Register_mutate sampleUserStore "B" "C" "bob" "ada@example.com"
          "x" "x")
        = (.error (.graphQLError "Email is already in use!"),
            sampleUserStore) :=
  ⟨by decide,
    (register_conflicts_then_mismatch_then_hash sampleUserStore "B" "C"
      "bob" "ada@example.com" "x" "x").1 (by decide)⟩

/-- C8: deleteAccount with a password that fails the stored-hash check fails
with the ValidationError message and the user table is unchanged (the
caller's row still present); with a matching password it returns the
supplied password and removes the caller's row. -/
theorem deleteAccount_requires_correct_password (user : User) (s : UserStore)
    (password : String) :
    (check_password user.password password = false →
        runUserMutation s (DeleteAccount_mutate user s password)
          = (.error (.graphQLError
              "Please specify correct password to delete account"), s))
    ∧ (user ∈ s.users → check_password user.password password = false →
        user ∈ (runUserMutation s
          (DeleteAccount_mutate user s password)).2.users)
    ∧ (check_password user.password password = true →
        (runUserMutation s (DeleteAccount_mutate user s password)).1
            = .ok password
        ∧ ∀ v ∈ (runUserMutation s
            (DeleteAccount_mutate user s password)).2.users, v.id ≠ user.id) := by
  refine ⟨fun hbad => ?_, fun hmem hbad => ?_, fun hgood => ?_⟩
  · simp [runUserMutation, DeleteAccount_mutate, hbad]
  · simp [runUserMutation, DeleteAccount_mutate, hbad, hmem]
  · refine ⟨by simp [runUserMutation, DeleteAccount_mutate, hgood], ?_⟩
    intro v hv
    simp only [runUserMutation, DeleteAccount_mutate, hgood,
      Bool.not_true, Bool.false_eq_true, if_false] at hv
    simpa using (List.mem_filter.mp hv).2

/-- C8, witness: for the stored user, deleteAccount with the wrong password
"nope" fails with the ValidationError and the row survives; with the correct
password "pw" it echoes the password and removes the row. -/
theorem deleteAccount_requires_correct_password_witness :
    check_password sampleUser.password "nope" = false
    ∧ sampleUser ∈ sampleUserStore.users
    ∧ runUserMutation sampleUserStore
        (DeleteAccount_mutate sampleUser sampleUserStore "nope")
        = (.error (.graphQLError
            "Please specify correct password to delete account"),
          sampleUserStore)
    ∧ sampleUser ∈ (runUserMutation sampleUserStore
        (DeleteAccount_mutate sampleUser sampleUserStore "nope")).2.users :=
  ⟨by decide, by decide,
    (deleteAccount_requires_correct_password sampleUser sampleUserStore
      "nope").1 (by decide),
    (deleteAccount_requires_correct_password sampleUser sampleUserStore
      "nope").2.1 (by decide) (by decide)⟩

end TodoApi
